/-
Verification of the v2ray-bot admission/onboarding logic (src/bot.py).

The Python source is shallowly embedded: SQLite tables become Lean lists,
async handlers become pure functions from an explicit state (plus the
outcomes of external calls: Telegram queries, the HTTP fetch, the random
sampler) to a new state and a list of symbolic replies.
-/
import Mathlib

set_option maxHeartbeats 1000000

/-! ## Data model

The SQLite schema of bot.py:
  settings(key TEXT PRIMARY KEY, value TEXT)
  channels(id AUTOINCREMENT, username TEXT UNIQUE)
  users(user_id INTEGER PRIMARY KEY, username TEXT, phone TEXT, joined_at TEXT)
-/

/-- A row of the `users` table: `user_id, username, phone, joined_at`.
Timestamps are abstracted to `Nat`. -/
structure UserRecord where
  user_id : Nat
  username : Option String
  phone : Option String
  joined_at : Nat
deriving DecidableEq, Repr

/-- The persistent database: `settings` as an association list in insertion
order, `channels` as usernames in insertion order, `users` as rows in
insertion order. -/
structure DB where
  settings : List (String × String)
  channels : List String
  users : List UserRecord
deriving DecidableEq, Repr

/-! ## Configuration store helpers (`db_get`, `db_set` in bot.py) -/

/-- `db_get`: `SELECT value FROM settings WHERE key=?`, falling back to the
default when no row matches. -/
def db_get (db : DB) (key default : String) : String :=
  match db.settings.find? (fun kv => kv.1 == key) with
  | some kv => kv.2
  | none => default

/-- `db_set`: `UPDATE settings SET value=? WHERE key=?`, and if no row was
updated, `INSERT INTO settings(key,value) VALUES(?,?)`. -/
def db_set (db : DB) (key value : String) : DB :=
  if db.settings.any (fun kv => kv.1 == key) then
    { db with settings := db.settings.map (fun kv => if kv.1 == key then (key, value) else kv) }
  else
    { db with settings := db.settings ++ [(key, value)] }

/-! ## Identity Ledger (`save_user`, `get_users` in bot.py) -/

/-- `save_user`: check whether a row for `user_id` exists
(`SELECT user_id FROM users WHERE user_id=?`); if it does, update
`username` and `joined_at` always and `phone` only when the supplied phone
is not `None`; otherwise insert a fresh row. -/
def save_user (db : DB) (user_id : Nat) (username : Option String)
    (phone : Option String) (now : Nat) : DB :=
  if db.users.any (fun r => r.user_id == user_id) then
    match phone with
    | some p =>
      { db with users := db.users.map (fun r =>
          if r.user_id == user_id then
            { r with username := username, phone := some p, joined_at := now }
          else r) }
    | none =>
      { db with users := db.users.map (fun r =>
          if r.user_id == user_id then
            { r with username := username, joined_at := now }
          else r) }
  else
    { db with users := db.users ++ [⟨user_id, username, phone, now⟩] }

/-- Lookup of the (first) ledger row for an identity. -/
def find_user (db : DB) (user_id : Nat) : Option UserRecord :=
  db.users.find? (fun r => r.user_id == user_id)

/-! ### Statement-level trace of `save_user`

`save_user` issues separate SQL statements; the trace records them in
order, for reasoning about atomicity. -/

/-- One SQL statement issued by `save_user`. -/
inductive DbOp
  /-- `SELECT user_id FROM users WHERE user_id=?` -/
  | selectUser (user_id : Nat)
  /-- `UPDATE users SET username=?, phone=?, joined_at=? WHERE user_id=?` -/
  | updateUserWithPhone (user_id : Nat) (username : Option String) (phone : String) (now : Nat)
  /-- `UPDATE users SET username=?, joined_at=? WHERE user_id=?` -/
  | updateUserNoPhone (user_id : Nat) (username : Option String) (now : Nat)
  /-- `INSERT INTO users(user_id, username, phone, joined_at) VALUES(?,?,?,?)` -/
  | insertUser (user_id : Nat) (username : Option String) (phone : Option String) (now : Nat)
deriving DecidableEq, Repr

/-- Whether a statement is a read (the existence check). -/
def DbOp.isRead : DbOp → Bool
  | .selectUser _ => true
  | _ => false

/-- The sequence of SQL statements `save_user` issues against a given
database state: first the existence check, then exactly one write whose
shape depends on the check's result and on the phone argument. -/
def save_user_trace (db : DB) (user_id : Nat) (username : Option String)
    (phone : Option String) (now : Nat) : List DbOp :=
  DbOp.selectUser user_id ::
    (if db.users.any (fun r => r.user_id == user_id) then
      match phone with
      | some p => [DbOp.updateUserWithPhone user_id username p now]
      | none => [DbOp.updateUserNoPhone user_id username now]
    else
      [DbOp.insertUser user_id username phone now])

/-! ## Channel management (`add_channel`, `remove_channel`, `list_channels`) -/

/-- `add_channel`: `INSERT INTO channels(username) VALUES(?)`; the UNIQUE
constraint makes a duplicate insert raise, which the source catches and
turns into `False` with no mutation. -/
def add_channel (db : DB) (username : String) : DB × Bool :=
  if db.channels.contains username then (db, false)
  else ({ db with channels := db.channels ++ [username] }, true)

/-- `remove_channel`: `DELETE FROM channels WHERE username=?`; the result
is `rowcount > 0`. -/
def remove_channel (db : DB) (username : String) : DB × Bool :=
  ({ db with channels := db.channels.filter (fun c => c != username) },
   db.channels.contains username)

/-! ## Membership Oracle (`is_member`, `check_all_memberships`)

The Telegram side of one `is_member` call is abstracted by the outcomes of
its three external interactions: resolving the channel username to an
entity, the `GetParticipantRequest`, and the fallback `iter_participants`
scan. -/

/-- Telethon participant statuses relevant to `is_member`. The source
checks `isinstance(participant, (ChannelParticipantLeft,
ChannelParticipantBanned))` and then `isinstance(participant,
ChannelParticipant)`; the creator, admin and self statuses are distinct
Telethon classes matching neither check. -/
inductive ParticipantStatus
  | plainMember
  | leftStatus
  | bannedStatus
  | creatorStatus
  | adminStatus
  | selfStatus
deriving DecidableEq, Repr, Fintype

/-- Outcome of `client.get_entity(channel_username)`. -/
inductive EntityResult
  | usernameNotOccupied
  | otherEntityError
  | resolved
deriving DecidableEq, Repr, Fintype

/-- Outcome of `client(GetParticipantRequest(entity, user_id))`: a concrete
participant status, or any exception (transport error, permission error,
or the user not being a participant at all). -/
inductive ParticipantQueryResult
  | ok (s : ParticipantStatus)
  | queryError
deriving DecidableEq, Repr, Fintype

/-- Outcome of the fallback `iter_participants` scan: the user id is found
in the member list, it is not, or the scan itself raises. -/
inductive IterScanResult
  | found
  | notFound
  | iterError
deriving DecidableEq, Repr, Fintype

/-- The external-world outcomes a single `is_member` call can observe. -/
structure OracleEnv where
  entity : EntityResult
  participantQuery : ParticipantQueryResult
  iterScan : IterScanResult
deriving DecidableEq, Repr, Fintype

/-- `is_member`: resolve the entity (any failure → `False`); query the
participant status (`left`/`banned` → `False`, the plain
`ChannelParticipant` status → `True`, any other status → `False`); on an
exception during the query, fall back to scanning the participant list
(`True` iff the user id is found, `False` if the scan also raises). -/
def is_member (env : OracleEnv) : Bool :=
  match env.entity with
  | .usernameNotOccupied => false
  | .otherEntityError => false
  | .resolved =>
    match env.participantQuery with
    | .ok s =>
      match s with
      | .leftStatus => false
      | .bannedStatus => false
      | .plainMember => true
      | _ => false
    | .queryError =>
      match env.iterScan with
      | .found => true
      | .notFound => false
      | .iterError => false

/-- `check_all_memberships`: loop over the channels, call `is_member` for
each, collect those for which it returned `False`. The first component of
the result is the trace of channels actually queried, in order; the second
is `not_joined`. The oracle outcomes are given per channel. -/
def check_all_memberships (oracle : String → OracleEnv) :
    List String → List String × List String
  | [] => ([], [])
  | ch :: rest =>
    let ok := is_member (oracle ch)
    let r := check_all_memberships oracle rest
    (ch :: r.1, if ok then r.2 else ch :: r.2)

/-! ## Resource Provider (`fetch_servers`, `pick_three`) -/

/-- Python's default whitespace test (`str.strip`, ASCII part). -/
def isPySpace (c : Char) : Bool :=
  c == ' ' || c == '\t' || c == '\n' || c == '\r' || c == '\x0b' || c == '\x0c'

/-- `str.strip()`: drop whitespace from both ends. -/
def pyStrip (s : String) : String :=
  String.mk ((((s.data.dropWhile isPySpace).reverse).dropWhile isPySpace).reverse)

/-- Helper for `str.splitlines()`: accumulate the current line, breaking at
`\n`, `\r\n` or `\r`, with no trailing empty line. -/
def splitlinesAux : List Char → List Char → List String
  | [], [] => []
  | [], acc => [String.mk acc.reverse]
  | '\n' :: rest, acc => String.mk acc.reverse :: splitlinesAux rest []
  | '\r' :: '\n' :: rest, acc => String.mk acc.reverse :: splitlinesAux rest []
  | '\r' :: rest, acc => String.mk acc.reverse :: splitlinesAux rest []
  | c :: rest, acc => splitlinesAux rest (c :: acc)

/-- `str.splitlines()` restricted to the newline conventions `\n`, `\r\n`
and `\r`. -/
def splitlines (s : String) : List String :=
  splitlinesAux s.data []

/-- `fetch_servers`: the HTTP GET is abstracted to its outcome — either a
response body, or any transport failure / timeout (`Except.error`). On a
body, the source computes `[ln.strip() for ln in text.splitlines() if
ln.strip()]`; on any exception it returns `[]`. -/
def fetch_servers (r : Except Unit String) : List String :=
  match r with
  | .error _ => []
  | .ok text =>
    (splitlines text).filterMap (fun ln =>
      let s := pyStrip ln
      if s != "" then some s else none)

/-- The randomness source behind `random.sample(items, 3)`: a list of
positions into the population. `random.sample` always draws positions that
are pairwise distinct and in range, which `ValidSel` records. -/
def sample (items : List String) (sel : List Nat) : List String :=
  sel.filterMap (fun i => items[i]?)

/-- The draws `random.sample(items, 3)` can make: exactly 3 positions,
pairwise distinct, all in range. -/
def ValidSel (n : Nat) (sel : List Nat) : Prop :=
  sel.length = 3 ∧ sel.Nodup ∧ ∀ i ∈ sel, i < n

instance (n : Nat) (sel : List Nat) : Decidable (ValidSel n sel) := by
  unfold ValidSel; infer_instance

/-- `pick_three`: return the input unchanged when it has at most 3 items,
otherwise `random.sample(items, 3)` (modelled by the drawn positions). -/
def pick_three (items : List String) (sel : List Nat) : List String :=
  if items.length ≤ 3 then items
  else sample items sel

/-! ## Handlers

Replies are symbolic: one constructor per distinct user-visible message of
the embedded handlers. -/

/-- The user-visible replies of `start_handler` and `on_contact`. -/
inductive Reply
  /-- "ربات فعلاً غیرفعال است..." — bot currently disabled. -/
  | unavailable
  /-- `JOIN_TEXT` with the join keyboard for the listed channels. -/
  | joinPrompt (channels : List String)
  /-- The ask-phone prompt with the request-phone button. -/
  | askPhone
  /-- "✅ شماره تماس شما ثبت شد!" — contact recorded. -/
  | contactSaved
  /-- "❌ خطا در دریافت سرورها..." — fetch failed / empty. -/
  | fetchError
  /-- "❌ هیچ سروری در دسترس نیست." — no server available. -/
  | noServer
  /-- `AFTER_SEND_TEXT` carrying the sampled servers. -/
  | servers (xs : List String)
deriving DecidableEq, Repr

/-- `DEFAULT_SETTINGS` of bot.py. -/
def DEFAULT_SETTINGS : List (String × String) := [("bot_enabled", "1")]

/-- The default-settings fill at the top of `start_handler`: for each
default, read the current value (falling back to the default) and write it
back. -/
def ensure_defaults (db : DB) : DB :=
  DEFAULT_SETTINGS.foldl (fun d kv => db_set d kv.1 (db_get d kv.1 kv.2)) db

/-- `start_handler` (the non-exceptional path): fill default settings; read
`bot_enabled`; if it is not `"1"` and the sender is not the admin, reply
unavailable and stop; otherwise read the channel list, touch the ledger
with a null phone, and either show the join prompt (channels non-empty) or
ask for the phone immediately. -/
def start_handler (admin_id : Nat) (db : DB) (sender_id : Nat)
    (username : Option String) (now : Nat) : DB × List Reply :=
  let db1 := ensure_defaults db
  let bot_enabled := db_get db1 "bot_enabled" "1"
  if bot_enabled ≠ "1" ∧ sender_id ≠ admin_id then
    (db1, [Reply.unavailable])
  else
    let chs := db1.channels
    let db2 := save_user db1 sender_id username none now
    if chs.isEmpty then (db2, [Reply.askPhone])
    else (db2, [Reply.joinPrompt chs])

/-- `on_contact` (the non-exceptional path): upsert the ledger with the
received phone, confirm, fetch the server list, and either report
unavailability (empty fetch), report no server (empty sample), or deliver
the sampled servers. The handler reads neither `bot_enabled` nor the
channel list. -/
def on_contact (db : DB) (sender_id : Nat) (username : Option String)
    (phone : Option String) (now : Nat) (fetchResult : Except Unit String)
    (sel : List Nat) : DB × List Reply :=
  let db2 := save_user db sender_id username phone now
  let servers := fetch_servers fetchResult
  if servers.isEmpty then (db2, [Reply.contactSaved, Reply.fetchError])
  else
    let three := pick_three servers sel
    if three.isEmpty then (db2, [Reply.contactSaved, Reply.noServer])
    else (db2, [Reply.contactSaved, Reply.servers three])

/-! ## Admin free-text flow (`admin_flows`) -/

/-- The two values `admin_flow_state` can hold for the admin. -/
inductive AdminMode
  | awaitChannelAdd
  | awaitChannelRemove
deriving DecidableEq, Repr

/-- The admin-visible replies of `admin_flows`. -/
inductive AdminReply
  /-- "❌ فرمت نادرست است..." — must start with @. -/
  | formatError
  /-- "✅ کانال ... اضافه شد!" -/
  | added (username : String)
  /-- "⚠️ کانال قبلاً وجود دارد یا خطا رخ داد" -/
  | addFailed
  /-- "✅ کانال ... حذف شد!" -/
  | removed (username : String)
  /-- "⚠️ کانال یافت نشد" -/
  | notFound
deriving DecidableEq, Repr

/-- Python's `username.startswith("@")`. -/
def starts_with_at (s : String) : Bool :=
  match s.data with
  | c :: _ => c == '@'
  | [] => false

/-- `admin_flows` (the non-exceptional path), for a text message from the
admin identity: no pending state → do nothing; `await_channel_add` →
reject input without the leading `@` (keeping the state), otherwise try
the insert and clear the state; `await_channel_remove` → auto-prefix `@`
if missing, delete, and clear the state. -/
def admin_flows (state : Option AdminMode) (db : DB) (raw_text : String) :
    Option AdminMode × DB × List AdminReply :=
  match state with
  | none => (none, db, [])
  | some .awaitChannelAdd =>
    let username := pyStrip raw_text
    if ¬ starts_with_at username then
      (some .awaitChannelAdd, db, [AdminReply.formatError])
    else
      let (db2, ok) := add_channel db username
      (none, db2, [if ok then AdminReply.added username else AdminReply.addFailed])
  | some .awaitChannelRemove =>
    let u0 := pyStrip raw_text
    let username := if starts_with_at u0 then u0 else "@" ++ u0
    let (db2, ok) := remove_channel db username
    (none, db2, [if ok then AdminReply.removed username else AdminReply.notFound])

/-! ## Generic list lemmas -/

/-- `List.any` agrees with definedness of `List.find?`. -/
theorem any_eq_find?_isSome {α : Type} (p : α → Bool) :
    ∀ l : List α, l.any p = (l.find? p).isSome := by
  intro l
  induction l with
  | nil => rfl
  | cons a t ih =>
    by_cases h : p a = true <;> simp [List.any_cons, List.find?_cons, h, ih]

/-- `find?` over a pointwise update that rewrites exactly the matching
entries, by a function preserving the predicate. -/
theorem find?_map_ite {α : Type} (p : α → Bool) (f : α → α)
    (hf : ∀ a, p a = true → p (f a) = true) :
    ∀ l : List α,
      (l.map (fun a => if p a then f a else a)).find? p = (l.find? p).map f := by
  intro l
  induction l with
  | nil => rfl
  | cons a t ih =>
    by_cases h : p a = true
    · simp [List.find?_cons, h, hf a h]
    · simp [List.find?_cons, h, ih]

/-- `find?` skips a prefix in which nothing matches. -/
theorem find?_append_of_none {α : Type} (p : α → Bool) :
    ∀ l1 l2 : List α, l1.find? p = none → (l1 ++ l2).find? p = l2.find? p := by
  intro l1
  induction l1 with
  | nil => intro l2 _; rfl
  | cons a t ih =>
    intro l2 h
    cases hp : p a with
    | true => simp [List.find?_cons, hp] at h
    | false =>
      simp only [List.cons_append, List.find?_cons, hp] at h ⊢
      exact ih l2 h

/-! ## Ledger lemmas -/

/-- A non-null phone always ends up stored, whether the row is fresh or
updated. -/
theorem find_user_save_user_some (db : DB) (uid : Nat) (u : Option String)
    (p : String) (now : Nat) :
    find_user (save_user db uid u (some p) now) uid = some ⟨uid, u, some p, now⟩ := by
  unfold save_user find_user
  by_cases h : db.users.any (fun r => r.user_id == uid) = true
  · simp only [h, if_true]
    have hmap := find?_map_ite (fun r => r.user_id == uid)
      (fun r => { r with username := u, phone := some p, joined_at := now })
      (fun a ha => ha) db.users
    simp only [hmap]
    have hsome : (db.users.find? (fun r => r.user_id == uid)).isSome := by
      rw [← any_eq_find?_isSome]; exact h
    obtain ⟨r, hr⟩ := Option.isSome_iff_exists.mp hsome
    have hrid : r.user_id = uid := by
      have := List.find?_some hr
      simpa using this
    simp [hr, hrid]
  · have hany : db.users.any (fun r => r.user_id == uid) = false := by
      simpa using h
    have hnone : db.users.find? (fun r => r.user_id == uid) = none := by
      have hiso := any_eq_find?_isSome (fun r => r.user_id == uid) db.users
      rw [hany] at hiso
      exact Option.not_isSome_iff_eq_none.mp (by rw [← hiso]; simp)
    simp only [hany, Bool.false_eq_true, if_false]
    rw [find?_append_of_none _ _ _ hnone]
    simp [List.find?_cons]


/-- A null phone updates handle and timestamp but leaves the stored phone
exactly as it was (absent rows get an absent phone). -/
theorem find_user_save_user_none (db : DB) (uid : Nat) (u : Option String)
    (now : Nat) :
    find_user (save_user db uid u none now) uid =
      some ⟨uid, u, ((find_user db uid).bind fun r => r.phone), now⟩ := by
  unfold save_user find_user
  by_cases h : db.users.any (fun r => r.user_id == uid) = true
  · simp only [h, if_true]
    have hmap := find?_map_ite (fun r => r.user_id == uid)
      (fun r => { r with username := u, joined_at := now })
      (fun a ha => ha) db.users
    simp only [hmap]
    have hsome : (db.users.find? (fun r => r.user_id == uid)).isSome := by
      rw [← any_eq_find?_isSome]; exact h
    obtain ⟨r, hr⟩ := Option.isSome_iff_exists.mp hsome
    have hrid : r.user_id = uid := by
      have := List.find?_some hr
      simpa using this
    simp [hr, hrid]
  · have hany : db.users.any (fun r => r.user_id == uid) = false := by
      simpa using h
    have hnone : db.users.find? (fun r => r.user_id == uid) = none := by
      have hiso := any_eq_find?_isSome (fun r => r.user_id == uid) db.users
      rw [hany] at hiso
      exact Option.not_isSome_iff_eq_none.mp (by rw [← hiso]; simp)
    simp only [hany, Bool.false_eq_true, if_false]
    rw [find?_append_of_none _ _ _ hnone]
    simp [List.find?_cons, hnone]

/-- C4: For every identity, the ledger upsert updates handle and timestamp
unconditionally but updates the contact identifier only when the supplied
value is non-null; in particular `upsert(id, h1, null); upsert(id, h2,
"p"); upsert(id, h3, null)` leaves the stored contact identifier `"p"`. -/
theorem save_user_contact_retention :
    ∀ (db : DB) (uid : Nat) (u : Option String) (now : Nat),
      (∀ p : String,
        find_user (save_user db uid u (some p) now) uid = some ⟨uid, u, some p, now⟩) ∧
      (find_user (save_user db uid u none now) uid =
        some ⟨uid, u, ((find_user db uid).bind fun r => r.phone), now⟩) ∧
      (∀ (h2 h3 : Option String) (t2 t3 : Nat) (p : String),
        (find_user (save_user (save_user (save_user db uid u none now) uid h2 (some p) t2)
            uid h3 none t3) uid).bind (fun r => r.phone) = some p) := by
  intro db uid u now
  refine ⟨fun p => find_user_save_user_some db uid u p now,
          find_user_save_user_none db uid u now, ?_⟩
  intro h2 h3 t2 t3 p
  rw [find_user_save_user_none, find_user_save_user_some]
  rfl

/-- C10 counterexample: the claim that each ledger upsert is a single
atomic store statement is false — on any input (here the empty database,
identity 1) the upsert issues more than one statement. -/
theorem save_user_single_statement_false :
    ¬ (∀ (db : DB) (uid : Nat) (u phone : Option String) (now : Nat),
        ∃ w : DbOp, DbOp.isRead w = false ∧
          save_user_trace db uid u phone now = [w]) := by
  intro h
  obtain ⟨w, _, htr⟩ := h ⟨[], [], []⟩ 1 none none 0
  have hlen := congrArg List.length htr
  simp [save_user_trace] at hlen

/-- C10 amended: every ledger upsert is a separate read-then-write pair —
an existence-check `SELECT` followed by exactly one write statement —
never a single atomic store. -/
theorem save_user_read_then_write :
    ∀ (db : DB) (uid : Nat) (u phone : Option String) (now : Nat),
      ∃ w : DbOp, DbOp.isRead (DbOp.selectUser uid) = true ∧ DbOp.isRead w = false ∧
        save_user_trace db uid u phone now = [DbOp.selectUser uid, w] := by
  intro db uid u phone now
  by_cases h : db.users.any (fun r => r.user_id == uid) = true
  · cases phone with
    | some p =>
      exact ⟨DbOp.updateUserWithPhone uid u p now, rfl, rfl, by simp [save_user_trace, h]⟩
    | none =>
      exact ⟨DbOp.updateUserNoPhone uid u now, rfl, rfl, by simp [save_user_trace, h]⟩
  · exact ⟨DbOp.insertUser uid u phone now, rfl, rfl, by simp [save_user_trace, h]⟩

/-! ## Membership Oracle theorems -/

/-- C1 counterexample: the claimed classification of `is_member` is false.
The universally quantified claim — resolution failure → `false`,
left/banned → `false`, any other concrete status → `true`, any error
during the status query → `false` — fails: at
`⟨resolved, ok creatorStatus, found⟩` the status is concrete and neither
left nor banned yet `is_member` returns `false`, and at
`⟨resolved, queryError, found⟩` the status query errored yet `is_member`
returns `true`. -/
theorem is_member_claim_false :
    ¬ (∀ env : OracleEnv,
        (env.entity ≠ EntityResult.resolved → is_member env = false) ∧
        (env.entity = EntityResult.resolved →
          env.participantQuery = ParticipantQueryResult.ok ParticipantStatus.leftStatus →
          is_member env = false) ∧
        (env.entity = EntityResult.resolved →
          env.participantQuery = ParticipantQueryResult.ok ParticipantStatus.bannedStatus →
          is_member env = false) ∧
        (∀ s : ParticipantStatus, env.entity = EntityResult.resolved →
          env.participantQuery = ParticipantQueryResult.ok s →
          s ≠ ParticipantStatus.leftStatus → s ≠ ParticipantStatus.bannedStatus →
          is_member env = true) ∧
        (env.entity = EntityResult.resolved →
          env.participantQuery = ParticipantQueryResult.queryError →
          is_member env = false)) := by
  decide

/-- C1 amended: `is_member` returns `true` exactly when the channel
resolves and either the participant-status query returns the plain
member status (left, banned, creator, admin and self statuses all give
`false`), or the query errors and the fallback participant-list scan
finds the user (a scan that misses or itself fails gives `false`, as does
any resolution failure). -/
theorem is_member_characterization :
    ∀ env : OracleEnv,
      is_member env = true ↔
        (env.entity = EntityResult.resolved ∧
          (env.participantQuery = ParticipantQueryResult.ok ParticipantStatus.plainMember ∨
            (env.participantQuery = ParticipantQueryResult.queryError ∧
              env.iterScan = IterScanResult.found))) := by
  decide

/-- C6: `check_all_memberships` queries `is_member` on every channel of
the input, in order and with no short-circuit (the query trace is the
whole input list), and returns exactly the order-preserving subsequence of
channels whose membership check came back false; on the empty input it
returns the empty list. -/
theorem check_all_memberships_spec :
    ∀ (oracle : String → OracleEnv) (channels : List String),
      (check_all_memberships oracle channels).1 = channels ∧
      (check_all_memberships oracle channels).2 =
        channels.filter (fun ch => ! is_member (oracle ch)) ∧
      (check_all_memberships oracle channels).2.Sublist channels ∧
      (check_all_memberships oracle []).2 = [] := by
  intro oracle channels
  refine ⟨?_, ?_, ?_, rfl⟩ <;> induction channels with
  | nil => simp [check_all_memberships]
  | cons ch rest ih => ?_
  case _ =>
    simp [check_all_memberships, ih]
  case _ =>
    cases hm : is_member (oracle ch) with
    | true => simp [check_all_memberships, List.filter_cons, hm, ih]
    | false => simp [check_all_memberships, List.filter_cons, hm, ih]
  case _ =>
    cases hm : is_member (oracle ch) with
    | true =>
      simp only [check_all_memberships, hm, if_true]
      exact ih.cons ch
    | false =>
      simp only [check_all_memberships, hm, Bool.false_eq_true, if_false]
      exact ih.cons₂ ch

/-! ## Admin flow theorems -/

/-- C3 counterexample: a malformed input does leave the admin in a waiting
state — with `AdminFlowState = awaiting-channel-add`, the text
`"mychannel"` (no leading `@`) is rejected and the state is NOT cleared. -/
theorem admin_flows_always_cleared_false :
    ¬ (∀ (mode : AdminMode) (db : DB) (text : String),
        (admin_flows (some mode) db text).1 = none) := by
  intro h
  exact absurd (h AdminMode.awaitChannelAdd ⟨[], [], []⟩ "mychannel") (by decide)

/-- C3 amended: `admin_flows` ignores messages when no flow state is set;
in awaiting-channel-remove it consumes the message and clears the state on
every path; in awaiting-channel-add it clears the state exactly when the
(stripped) input starts with `@` — a malformed input is rejected with a
format error and the state is retained, so the next message is consumed
again. -/
theorem admin_flows_state_clearing :
    ∀ (db : DB) (text : String),
      admin_flows none db text = (none, db, []) ∧
      (admin_flows (some AdminMode.awaitChannelRemove) db text).1 = none ∧
      (admin_flows (some AdminMode.awaitChannelAdd) db text).1 =
        (if starts_with_at (pyStrip text) then none else some AdminMode.awaitChannelAdd) := by
  intro db text
  refine ⟨rfl, rfl, ?_⟩
  cases hs : starts_with_at (pyStrip text) with
  | true => simp [admin_flows, hs]
  | false => simp [admin_flows, hs]

/-! ## Configuration store lemmas -/

/-- `db_set` only touches the settings table. -/
theorem db_set_users_channels (db : DB) (k v : String) :
    (db_set db k v).users = db.users ∧ (db_set db k v).channels = db.channels := by
  unfold db_set; split <;> exact ⟨rfl, rfl⟩

/-- Reading back the key just written returns the written value. -/
theorem db_get_db_set_same (db : DB) (k v d : String) :
    db_get (db_set db k v) k d = v := by
  unfold db_get db_set
  by_cases h : db.settings.any (fun kv => kv.1 == k) = true
  · simp only [h, if_true]
    have hmap := find?_map_ite (fun kv => kv.1 == k) (fun _ => (k, v))
      (by intro a _; simp) db.settings
    simp only [hmap]
    have hsome : (db.settings.find? (fun kv => kv.1 == k)).isSome := by
      rw [← any_eq_find?_isSome]; exact h
    obtain ⟨kv0, hkv⟩ := Option.isSome_iff_exists.mp hsome
    simp [hkv]
  · have hany : db.settings.any (fun kv => kv.1 == k) = false := by
      cases hb : db.settings.any (fun kv => kv.1 == k) with
      | true => exact absurd hb h
      | false => rfl
    have hnone : db.settings.find? (fun kv => kv.1 == k) = none := by
      have hiso := any_eq_find?_isSome (fun kv => kv.1 == k) db.settings
      rw [hany] at hiso
      exact Option.not_isSome_iff_eq_none.mp (by rw [← hiso]; simp)
    simp only [hany, Bool.false_eq_true, if_false]
    rw [find?_append_of_none _ _ _ hnone]
    simp [List.find?_cons]

/-- The default-settings fill is one `db_set` of the current
`bot_enabled` value. -/
theorem ensure_defaults_eq (db : DB) :
    ensure_defaults db = db_set db "bot_enabled" (db_get db "bot_enabled" "1") := by
  simp [ensure_defaults, DEFAULT_SETTINGS]

/-- The default-settings fill touches neither users nor channels and
preserves the `bot_enabled` value it reads. -/
theorem ensure_defaults_frame (db : DB) :
    (ensure_defaults db).users = db.users ∧
    (ensure_defaults db).channels = db.channels ∧
    db_get (ensure_defaults db) "bot_enabled" "1" = db_get db "bot_enabled" "1" := by
  rw [ensure_defaults_eq]
  exact ⟨(db_set_users_channels _ _ _).1, (db_set_users_channels _ _ _).2,
    db_get_db_set_same _ _ _ _⟩

/-- `save_user` only touches the users table. -/
theorem save_user_settings_channels (db : DB) (uid : Nat) (u p : Option String) (now : Nat) :
    (save_user db uid u p now).settings = db.settings ∧
    (save_user db uid u p now).channels = db.channels := by
  unfold save_user
  split
  · cases p <;> exact ⟨rfl, rfl⟩
  · exact ⟨rfl, rfl⟩

/-! ## `start_handler` theorems -/

/-- C5: on a `/start` event with the bot disabled and a non-admin sender,
`start_handler` replies with the unavailable notice and leaves the
Identity Ledger untouched (only the default-settings fill ran); the admin
identity is never blocked by the disabled-gate short-circuit — for the
admin the handler always proceeds to the join prompt or the phone
prompt. -/
theorem start_handler_disabled_gate :
    ∀ (admin_id : Nat) (db : DB) (sender : Nat) (uname : Option String) (now : Nat),
      (db_get db "bot_enabled" "1" ≠ "1" → sender ≠ admin_id →
        start_handler admin_id db sender uname now = (ensure_defaults db, [Reply.unavailable]) ∧
        (start_handler admin_id db sender uname now).1.users = db.users) ∧
      ((start_handler admin_id db admin_id uname now).2 ≠ [Reply.unavailable] ∧
        (start_handler admin_id db admin_id uname now).2 =
          (if db.channels.isEmpty then [Reply.askPhone] else [Reply.joinPrompt db.channels])) := by
  intro admin_id db sender uname now
  obtain ⟨hu, hc, hg⟩ := ensure_defaults_frame db
  constructor
  · intro hdis hns
    have hcond : db_get (ensure_defaults db) "bot_enabled" "1" ≠ "1" ∧ sender ≠ admin_id := by
      rw [hg]; exact ⟨hdis, hns⟩
    have hres : start_handler admin_id db sender uname now =
        (ensure_defaults db, [Reply.unavailable]) := by
      simp only [start_handler]
      rw [if_pos hcond]
    exact ⟨hres, by rw [hres]; exact hu⟩
  · have hcond : ¬ (db_get (ensure_defaults db) "bot_enabled" "1" ≠ "1" ∧
        admin_id ≠ admin_id) := fun h => h.2 rfl
    have hres : start_handler admin_id db admin_id uname now =
        (save_user (ensure_defaults db) admin_id uname none now,
          if (ensure_defaults db).channels.isEmpty then [Reply.askPhone]
          else [Reply.joinPrompt (ensure_defaults db).channels]) := by
      simp only [start_handler]
      rw [if_neg hcond]
      split <;> rfl
    rw [hres, hc]
    constructor
    · cases hemp : db.channels.isEmpty <;> simp
    · rfl

/-! ## Resource Provider theorems -/

/-- The list comprehension of `fetch_servers`, written as the spec words
it: map trim over the lines, then discard the lines that trimmed to
empty. -/
def spec_trimmed_lines (body : String) : List String :=
  ((splitlines body).map pyStrip).filter (fun s => s != "")

/-- Filtering on the trimmed value and mapping to it, in one
comprehension, is trim-then-discard-empties. -/
theorem filterMap_strip_eq (l : List String) :
    l.filterMap (fun ln => let s := pyStrip ln; if s != "" then some s else none) =
      (l.map pyStrip).filter (fun s => s != "") := by
  induction l with
  | nil => rfl
  | cons a t ih =>
    by_cases h : pyStrip a = "" <;>
    · simp [List.filterMap_cons, List.filter_cons, h]
      simpa using ih

/-- C8: on any transport failure or timeout `fetch_servers` returns the
empty list rather than propagating; on a response body it returns the
lines of the body with leading and trailing whitespace trimmed and with
whitespace-only or empty lines discarded. -/
theorem fetch_servers_spec :
    fetch_servers (Except.error ()) = [] ∧
    ∀ body : String, fetch_servers (Except.ok body) = spec_trimmed_lines body := by
  refine ⟨rfl, ?_⟩
  intro body
  unfold fetch_servers spec_trimmed_lines
  exact filterMap_strip_eq _

/-! ## `on_contact` theorems -/

/-- C2: the contact handler neither reads the enable flag nor the
required-channel set — its replies are identical across any two stored
configurations agreeing on the users table, it always upserts the ledger
with the received contact, and its first reply is always the
contact-saved confirmation; concretely, with the bot disabled
(`bot_enabled = "0"`) and a required channel configured, an unknown
sender's contact still gets servers delivered with no membership check. -/
theorem on_contact_ignores_gate :
    ∀ (st1 st2 : List (String × String)) (ch1 ch2 : List String) (us : List UserRecord)
      (sender : Nat) (uname phone : Option String) (now : Nat)
      (fr : Except Unit String) (sel : List Nat),
      (on_contact ⟨st1, ch1, us⟩ sender uname phone now fr sel).2 =
        (on_contact ⟨st2, ch2, us⟩ sender uname phone now fr sel).2 ∧
      (on_contact ⟨st1, ch1, us⟩ sender uname phone now fr sel).1.users =
        (save_user ⟨st1, ch1, us⟩ sender uname phone now).users ∧
      (on_contact ⟨st1, ch1, us⟩ sender uname phone now fr sel).2.head? =
        some Reply.contactSaved ∧
      (on_contact ⟨[("bot_enabled", "0")], ["@required"], []⟩ 5 none (some "p") 0
          (Except.ok "s1\ns2\ns3\ns4") [0, 1, 2]).2 =
        [Reply.contactSaved, Reply.servers ["s1", "s2", "s3"]] := by
  intro st1 st2 ch1 ch2 us sender uname phone now fr sel
  refine ⟨?_, ?_, ?_, by decide⟩ <;>
    · simp only [on_contact]
      split
      · rfl
      · split <;> rfl

/-- C7: when the server fetch comes back empty, the contact handler has
already upserted the ledger with the received contact identifier, and it
replies with the confirmation followed by the unavailability notice with
no resources delivered. -/
theorem on_contact_empty_fetch :
    ∀ (db : DB) (sender : Nat) (uname : Option String) (p : String) (now : Nat)
      (fr : Except Unit String) (sel : List Nat),
      fetch_servers fr = [] →
      on_contact db sender uname (some p) now fr sel =
        (save_user db sender uname (some p) now, [Reply.contactSaved, Reply.fetchError]) ∧
      (find_user (on_contact db sender uname (some p) now fr sel).1 sender).bind
          (fun r => r.phone) = some p := by
  intro db sender uname p now fr sel hf
  have h1 : on_contact db sender uname (some p) now fr sel =
      (save_user db sender uname (some p) now, [Reply.contactSaved, Reply.fetchError]) := by
    simp only [on_contact, hf]
    rfl
  refine ⟨h1, ?_⟩
  rw [h1]
  simp [find_user_save_user_some]

/-- Witness for C7 at a concrete input: a transport failure yields the
empty fetch, and the handler stores the contact and reports
unavailability. -/
theorem on_contact_empty_fetch_witness :
    on_contact ⟨[], [], []⟩ 5 none (some "p") 0 (Except.error ()) [] =
      (save_user ⟨[], [], []⟩ 5 none (some "p") 0, [Reply.contactSaved, Reply.fetchError]) ∧
    (find_user (on_contact ⟨[], [], []⟩ 5 none (some "p") 0 (Except.error ()) []).1 5).bind
        (fun r => r.phone) = some "p" :=
  on_contact_empty_fetch ⟨[], [], []⟩ 5 none "p" 0 (Except.error ()) [] rfl

/-- Witness for C5 at a concrete input: bot disabled (`"0"`), admin 7,
sender 5 — the sender is blocked with the ledger untouched, the admin is
not. -/
theorem start_handler_disabled_gate_witness :
    start_handler 7 ⟨[("bot_enabled", "0")], [], []⟩ 5 none 0 =
      (ensure_defaults ⟨[("bot_enabled", "0")], [], []⟩, [Reply.unavailable]) ∧
    (start_handler 7 ⟨[("bot_enabled", "0")], [], []⟩ 5 none 0).1.users = [] ∧
    (start_handler 7 ⟨[("bot_enabled", "0")], [], []⟩ 7 none 0).2 ≠ [Reply.unavailable] :=
  have h := start_handler_disabled_gate 7 ⟨[("bot_enabled", "0")], [], []⟩ 5 none 0
  have h7 := start_handler_disabled_gate 7 ⟨[("bot_enabled", "0")], [], []⟩ 7 none 0
  ⟨(h.1 (by decide) (by decide)).1, (h.1 (by decide) (by decide)).2, h7.2.1⟩

/-! ## `pick_three` theorems -/

/-- A sample over in-range positions has as many elements as positions. -/
theorem sample_length (items : List String) :
    ∀ sel : List Nat, (∀ i ∈ sel, i < items.length) →
      (sample items sel).length = sel.length := by
  intro sel
  induction sel with
  | nil => intro _; rfl
  | cons i t ih =>
    intro h
    have hi : i < items.length := h i (List.mem_cons_self i t)
    have hgi : items[i]? = some items[i] := List.getElem?_eq_getElem hi
    have hrest := ih (fun j hj => h j (List.mem_cons_of_mem i hj))
    simp only [sample, List.filterMap_cons, hgi, List.length_cons]
    simp only [sample] at hrest
    rw [hrest]

/-- Every sampled element comes from the population. -/
theorem sample_subset (items : List String) :
    ∀ (sel : List Nat) (x : String), x ∈ sample items sel → x ∈ items := by
  intro sel x hx
  obtain ⟨i, _, hget⟩ := List.mem_filterMap.mp hx
  exact List.getElem?_mem hget

/-- Distinct positions into a duplicate-free population give a
duplicate-free sample. -/
theorem sample_nodup (items : List String) (hitems : items.Nodup) :
    ∀ sel : List Nat, sel.Nodup → (∀ i ∈ sel, i < items.length) →
      (sample items sel).Nodup := by
  intro sel
  induction sel with
  | nil => intro _ _; exact List.nodup_nil
  | cons i t ih =>
    intro hnd hlt
    have hi : i < items.length := hlt i (List.mem_cons_self i t)
    have hgi : items[i]? = some items[i] := List.getElem?_eq_getElem hi
    have hrest : (sample items t).Nodup :=
      ih (List.Nodup.of_cons hnd) (fun j hj => hlt j (List.mem_cons_of_mem i hj))
    have hnotmem : items[i] ∉ sample items t := by
      intro hmem
      obtain ⟨j, hjmem, hget⟩ := List.mem_filterMap.mp hmem
      have hij : i = j := List.getElem?_inj hi hitems (by rw [hgi, hget])
      exact (List.nodup_cons.mp hnd).1 (hij ▸ hjmem)
    have hcons : sample items (i :: t) = items[i] :: sample items t := by
      simp [sample, List.filterMap_cons, hgi]
    rw [hcons]
    exact List.nodup_cons.mpr ⟨hnotmem, hrest⟩

/-- C9 counterexample: for an input of more than 3 items, `pick_three`
does NOT always return pairwise-distinct elements — `random.sample` draws
distinct positions, not distinct values, so on the population
`["a","a","a","a"]` with the (valid) draw `[0,1,2]` the result is
`["a","a","a"]`. -/
theorem pick_three_distinct_false :
    ¬ (∀ (items : List String) (sel : List Nat),
        ValidSel items.length sel → 3 < items.length →
        (pick_three items sel).length = 3 ∧
        (pick_three items sel).Pairwise (fun a b => a ≠ b) ∧
        ∀ x ∈ pick_three items sel, x ∈ items) := by
  intro h
  have h2 := h ["a", "a", "a", "a"] [0, 1, 2] (by decide) (by decide)
  exact absurd h2.2.1 (by decide)

/-- C9 amended: `pick_three` returns every input of at most 3 items
unchanged, whatever the randomness source holds; on a longer input, for
every draw `random.sample` can make (3 pairwise distinct in-range
positions) it returns exactly 3 elements, each drawn from the input —
these are distinct occurrences, and they are pairwise distinct as values
whenever the input has no duplicate values. -/
theorem pick_three_spec :
    ∀ (items : List String) (sel : List Nat),
      (items.length ≤ 3 → pick_three items sel = items) ∧
      (ValidSel items.length sel → 3 < items.length →
        (pick_three items sel).length = 3 ∧
        (∀ x ∈ pick_three items sel, x ∈ items) ∧
        (items.Nodup → (pick_three items sel).Nodup)) := by
  intro items sel
  constructor
  · intro hle
    simp [pick_three, hle]
  · intro hv hgt
    obtain ⟨hlen, hnd, hlt⟩ := hv
    have hnle : ¬ items.length ≤ 3 := by omega
    refine ⟨?_, ?_, ?_⟩
    · simp only [pick_three, hnle, if_false]
      rw [sample_length items sel hlt, hlen]
    · intro x hx
      simp only [pick_three, hnle, if_false] at hx
      exact sample_subset items sel x hx
    · intro hitems
      simp only [pick_three, hnle, if_false]
      exact sample_nodup items hitems sel hnd hlt

/-- Witness for C9 at concrete inputs: the 2-element population
`["a","b"]` is returned unchanged (for an arbitrary draw), and for the
4-element population `["a","b","c","d"]` the draw `[0,1,2]` is valid and
`pick_three` returns 3 distinct elements of it. -/
theorem pick_three_spec_witness :
    ((["a", "b"] : List String).length ≤ 3 ∧
      pick_three ["a", "b"] [2, 0, 7] = ["a", "b"]) ∧
    (ValidSel (["a", "b", "c", "d"] : List String).length [0, 1, 2] ∧
      3 < (["a", "b", "c", "d"] : List String).length ∧
      (pick_three ["a", "b", "c", "d"] [0, 1, 2]).length = 3 ∧
      (∀ x ∈ pick_three ["a", "b", "c", "d"] [0, 1, 2],
        x ∈ (["a", "b", "c", "d"] : List String)) ∧
      ((["a", "b", "c", "d"] : List String).Nodup →
        (pick_three ["a", "b", "c", "d"] [0, 1, 2]).Nodup)) :=
  have hbig := (pick_three_spec ["a", "b", "c", "d"] [0, 1, 2]).2 (by decide) (by decide)
  ⟨⟨by decide, (pick_three_spec ["a", "b"] [2, 0, 7]).1 (by decide)⟩,
   ⟨by decide, by decide, hbig.1, hbig.2.1, hbig.2.2⟩⟩
